import Mathlib

/-
Verification of the proof-of-sql core: the placeholder expression
(`PlaceholderExpr`), the trivial plan (`EmptyExec`), the demonstration
pass-through plan (`DemoMockPlan`) and the `TableEvaluation` aggregate,
shallowly embedded from the Rust sources.

Conventions of the embedding:
- Rust `Result<T, E>` becomes `Except E T`; a Rust panic (indexing a map
  with a missing key, `.unwrap()` on `None`) is modelled by returning
  `none` in an `Option`-wrapped result, so `none` = the call panics and
  `some r` = the call returns `r`.
- `IndexMap`/`IndexSet` (insertion-ordered containers) are association
  lists / lists, which preserve insertion order.
- The abstract scalar field `S` is any commutative ring.
-/

namespace ProofOfSql

/-- Modelled from the spec: `ColumnType` is a "closed enum of supported
column element kinds (boolean, integer widths, etc.)"; its definition is
not among the given sources. -/
inductive ColumnType where
  | Boolean
  | TinyInt
  | SmallInt
  | Int
  | BigInt
  | Int128
  deriving DecidableEq, Repr

/-- Modelled from the spec: `LiteralValue` is "a tagged value (kind +
payload) representing a constant or substituted parameter; carries its own
`ColumnType` via a projection function"; its definition is not among the
given sources. -/
inductive LiteralValue where
  | Boolean (b : Bool)
  | TinyInt (n : Int)
  | SmallInt (n : Int)
  | Int (n : Int)
  | BigInt (n : Int)
  | Int128 (n : Int)
  deriving DecidableEq, Repr

/-- The `ColumnType` projection of a `LiteralValue` (spec 4.1: "every
`LiteralValue` variant maps deterministically to exactly one
`ColumnType`"). -/
def LiteralValue.column_type : LiteralValue → ColumnType
  | .Boolean _ => .Boolean
  | .TinyInt _ => .TinyInt
  | .SmallInt _ => .SmallInt
  | .Int _ => .Int
  | .BigInt _ => .BigInt
  | .Int128 _ => .Int128

/-- Modelled from the spec: the deterministic mapping of each literal value
to a field element (`to_scalar`, spec 4.1). Booleans map to 0/1, integers
by the ring's canonical integer map. -/
def LiteralValue.to_scalar {S : Type} [CommRing S] : LiteralValue → S
  | .Boolean b => if b then 1 else 0
  | .TinyInt n => (n : S)
  | .SmallInt n => (n : S)
  | .Int n => (n : S)
  | .BigInt n => (n : S)
  | .Int128 n => (n : S)

/-- `PlaceholderError` as described by the error taxonomy (spec 7) and used
by `placeholder_expr.rs`. -/
inductive PlaceholderError where
  | ZeroPlaceholderId
  | InvalidPlaceholderIndex (index : Nat) (num_params : Nat)
  | InvalidPlaceholderType (index : Nat) (expected : ColumnType) (actual : ColumnType)
  deriving DecidableEq, Repr

/-- Modelled from the spec: `ProofError` is the "verifier-side failure"
error (spec 7); its definition is not among the given sources. The
`?` operator in `PlaceholderExpr::verifier_evaluate` converts a
`PlaceholderError` into a `ProofError`, so one constructor wraps it. -/
inductive ProofError where
  | VerificationError
  | PlaceholderErr (e : PlaceholderError)
  deriving DecidableEq, Repr

/-- Insertion-order-preserving map, embedded as an association list. -/
abbrev IndexMap (K V : Type) := List (K × V)

/-- Insertion-order-preserving set, embedded as a list. -/
abbrev IndexSet (T : Type) := List T

/-- Key lookup in an `IndexMap` (Rust `get`, returning `Option`; the
panicking `Index` operator is this lookup with `none` modelling the
panic). -/
def IndexMap.find {K V : Type} [DecidableEq K] : IndexMap K V → K → Option V
  | [], _ => none
  | (k, v) :: rest, key => if key = k then some v else IndexMap.find rest key

/-- Column identifier (`sqlparser::ast::Ident`). -/
abbrev Ident := String

/-- Modelled from the spec: `TableRef` "identifies a table
(namespace-qualified name)"; its definition is not among the given
sources. -/
structure TableRef where
  name : String
  deriving DecidableEq, Repr

/-- Modelled from the spec: `ColumnRef` "identifies a column: owning
`TableRef` + column identifier + `ColumnType`"; its definition is not
among the given sources. -/
structure ColumnRef where
  table_ref : TableRef
  column_id : Ident
  column_type : ColumnType
  deriving DecidableEq, Repr

/-- Modelled from the spec: `ColumnField` pairs a column identifier with
its type (used by `get_column_result_fields`). -/
structure ColumnField where
  name : Ident
  column_type : ColumnType
  deriving DecidableEq, Repr

/-- Modelled from the spec: `Column` is "a borrowed, type-tagged sequence
of field-encodable values"; we embed it as the sequence of its values.
Its definition is not among the given sources. -/
structure Column where
  values : List LiteralValue
  deriving DecidableEq, Repr

/-- Modelled from the spec: a `Column` "produced from a `LiteralValue`
broadcast to a given length (`from_literal_with_length`)". -/
def Column.from_literal_with_length (v : LiteralValue) (n : Nat) : Column :=
  ⟨List.replicate n v⟩

/-- Modelled from the spec: `TableOptions` carries an optional forced row
count (spec 4.3: "`TableOptions` forcing row count = 1"). -/
structure TableOptions where
  row_count : Option Nat
  deriving DecidableEq, Repr

/-- `TableOptions::new`. -/
def TableOptions.new (row_count : Option Nat) : TableOptions :=
  ⟨row_count⟩

/-- Modelled from the spec: `Table` is "an ordered mapping from column
identifier to `Column`, plus a row count"; invariant: "every column in a
table has exactly the table's row count". Its definition is not among the
given sources. -/
structure Table where
  columns : List (Ident × Column)
  num_rows : Nat
  deriving DecidableEq, Repr

/-- Modelled from the spec: `Table::try_new_with_options` — a table is
"constructible empty with a forced row count"; construction fails when a
column's length disagrees with the row count (the table invariant). With
no forced count the first column's length (or 0) is used. -/
def Table.try_new_with_options (columns : List (Ident × Column))
    (options : TableOptions) : Option Table :=
  let n := match options.row_count with
    | some n => n
    | none => ((columns.head?).map (fun c => c.2.values.length)).getD 0
  if columns.all (fun c => c.2.values.length = n) then some ⟨columns, n⟩ else none

/-- Modelled from the spec: `OwnedTable` is the "optional already-known
result table for consistency checks" handed to the verifier; the plans
verified here never inspect it. -/
structure OwnedTable (S : Type) where
  columns : List (Ident × List S)

/-- Modelled from the spec: `FirstRoundBuilder` accumulates the prover's
first-round witness data; the nodes verified here never use it. -/
structure FirstRoundBuilder (S : Type) where
  committed : List S

/-- Modelled from the spec: `FinalRoundBuilder` accumulates the prover's
challenge-dependent witness data; the nodes verified here never use it. -/
structure FinalRoundBuilder (S : Type) where
  committed : List S

/-- Modelled from the spec: `VerificationBuilder` "exposes helpers such as
the singleton indicator evaluation" (`singleton_chi_evaluation`). -/
structure VerificationBuilder (S : Type) where
  singleton_chi_evaluation : S

/-- `TableEvaluation` (table_evaluation.rs): evaluations of each result
column plus the chi (all-one column) evaluation paired with the row
count. -/
structure TableEvaluation (S : Type) where
  column_evals : List S
  chi : S × Nat

/-- `TableEvaluation::new` (table_evaluation.rs): plain constructor. -/
def TableEvaluation.new {S : Type} (column_evals : List S) (chi : S × Nat) :
    TableEvaluation S :=
  ⟨column_evals, chi⟩

/-- `TableEvaluation::chi_eval` (table_evaluation.rs): first component of
`chi`. -/
def TableEvaluation.chi_eval {S : Type} (t : TableEvaluation S) : S :=
  t.chi.1

/-- `PlaceholderExpr` (placeholder_expr.rs): 0-based parameter index plus
declared column type. -/
structure PlaceholderExpr where
  index : Nat
  column_type : ColumnType
  deriving DecidableEq, Repr

/-- `PlaceholderExpr::try_new` (placeholder_expr.rs): builds the
placeholder from a 1-based id, rejecting id 0. -/
def PlaceholderExpr.try_new (id : Nat) (column_type : ColumnType) :
    Except PlaceholderError PlaceholderExpr :=
  if id > 0 then .ok ⟨id - 1, column_type⟩ else .error .ZeroPlaceholderId

/-- `PlaceholderExpr::new_from_index` (placeholder_expr.rs). -/
def PlaceholderExpr.new_from_index (index : Nat) (column_type : ColumnType) :
    PlaceholderExpr :=
  ⟨index, column_type⟩

/-- `PlaceholderExpr::interpolate` (placeholder_expr.rs): look up
`params[index]`, failing on an out-of-bounds index or a type mismatch. -/
def PlaceholderExpr.interpolate (e : PlaceholderExpr)
    (params : List LiteralValue) : Except PlaceholderError LiteralValue :=
  match params[e.index]? with
  | none => .error (.InvalidPlaceholderIndex e.index params.length)
  | some param_value =>
    if param_value.column_type ≠ e.column_type then
      .error (.InvalidPlaceholderType e.index e.column_type param_value.column_type)
    else
      .ok param_value

/-- `PlaceholderExpr::first_round_evaluate` (placeholder_expr.rs):
interpolate, then broadcast the literal to the table's row count. -/
def PlaceholderExpr.first_round_evaluate (e : PlaceholderExpr)
    (table : Table) (params : List LiteralValue) :
    Except PlaceholderError Column :=
  (e.interpolate params).map
    (fun param_value => Column.from_literal_with_length param_value table.num_rows)

/-- `PlaceholderExpr::final_round_evaluate` (placeholder_expr.rs): ignores
the builder; interpolate, then broadcast to the table's row count. -/
def PlaceholderExpr.final_round_evaluate {S : Type} (e : PlaceholderExpr)
    (_builder : FinalRoundBuilder S) (table : Table)
    (params : List LiteralValue) : Except PlaceholderError Column :=
  (e.interpolate params).map
    (fun param_value => Column.from_literal_with_length param_value table.num_rows)

/-- `PlaceholderExpr::verifier_evaluate` (placeholder_expr.rs):
interpolate (errors converted into `ProofError`), then return
`chi_eval * param_value.to_scalar()`. -/
def PlaceholderExpr.verifier_evaluate {S : Type} [CommRing S]
    (e : PlaceholderExpr) (_builder : VerificationBuilder S)
    (_accessor : IndexMap Ident S) (chi_eval : S)
    (params : List LiteralValue) : Except ProofError S :=
  match e.interpolate params with
  | .error err => .error (.PlaceholderErr err)
  | .ok param_value => .ok (chi_eval * param_value.to_scalar)

/-- `PlaceholderExpr::get_column_references` (placeholder_expr.rs): the
body is empty, so the set is returned unchanged (the Rust function
mutates nothing). -/
def PlaceholderExpr.get_column_references (_e : PlaceholderExpr)
    (columns : IndexSet ColumnRef) : IndexSet ColumnRef :=
  columns

/-- `EmptyExec` (empty_exec.rs): fieldless plan for queries without a
table source. -/
structure EmptyExec where
  deriving DecidableEq, Repr

/-- `EmptyExec::new` (empty_exec.rs). -/
def EmptyExec.new : EmptyExec :=
  ⟨⟩

/-- `EmptyExec::verifier_evaluate` (empty_exec.rs): always
`Ok(TableEvaluation::new(vec![], (builder.singleton_chi_evaluation(), 1)))`. -/
def EmptyExec.verifier_evaluate {S : Type} (_e : EmptyExec)
    (builder : VerificationBuilder S)
    (_accessor : IndexMap TableRef (IndexMap Ident S))
    (_result : Option (OwnedTable S))
    (_chi_eval_map : IndexMap TableRef (S × Nat))
    (_params : List LiteralValue) : Except ProofError (TableEvaluation S) :=
  .ok (TableEvaluation.new [] (builder.singleton_chi_evaluation, 1))

/-- `EmptyExec::get_column_result_fields` (empty_exec.rs). -/
def EmptyExec.get_column_result_fields (_e : EmptyExec) : List ColumnField :=
  []

/-- `EmptyExec::get_column_references` (empty_exec.rs). -/
def EmptyExec.get_column_references (_e : EmptyExec) : IndexSet ColumnRef :=
  []

/-- `EmptyExec::get_table_references` (empty_exec.rs). -/
def EmptyExec.get_table_references (_e : EmptyExec) : IndexSet TableRef :=
  []

/-- `EmptyExec::first_round_evaluate` (empty_exec.rs): build an empty
table forced to one row; the `.unwrap()` panic is the `none` case of the
`Option` wrapper. -/
def EmptyExec.first_round_evaluate {S : Type} (_e : EmptyExec)
    (_builder : FirstRoundBuilder S)
    (_table_map : IndexMap TableRef Table)
    (_params : List LiteralValue) :
    Option (Except PlaceholderError Table) :=
  (Table.try_new_with_options [] (TableOptions.new (some 1))).map Except.ok

/-- `EmptyExec::final_round_evaluate` (empty_exec.rs): identical body to
the first round. -/
def EmptyExec.final_round_evaluate {S : Type} (_e : EmptyExec)
    (_builder : FinalRoundBuilder S)
    (_table_map : IndexMap TableRef Table)
    (_params : List LiteralValue) :
    Option (Except PlaceholderError Table) :=
  (Table.try_new_with_options [] (TableOptions.new (some 1))).map Except.ok

/-- `DemoMockPlan` (demo_mock_plan.rs): pass-through plan over one
column. -/
structure DemoMockPlan where
  column : ColumnRef
  deriving DecidableEq, Repr

/-- `DemoMockPlan::verifier_evaluate` (demo_mock_plan.rs):
`TableEvaluation::new(vec![accessor[&table][&column]], chi_eval_map[&table])`.
Each `Index` lookup panics when the key is absent; a panic is the `none`
case, in the same left-to-right order Rust evaluates the lookups. -/
def DemoMockPlan.verifier_evaluate {S : Type} (p : DemoMockPlan)
    (_builder : VerificationBuilder S)
    (accessor : IndexMap TableRef (IndexMap Ident S))
    (_result : Option (OwnedTable S))
    (chi_eval_map : IndexMap TableRef (S × Nat))
    (_params : List LiteralValue) :
    Option (Except ProofError (TableEvaluation S)) :=
  match IndexMap.find accessor p.column.table_ref with
  | none => none
  | some column_map =>
    match IndexMap.find column_map p.column.column_id with
    | none => none
    | some col_eval =>
      match IndexMap.find chi_eval_map p.column.table_ref with
      | none => none
      | some chi => some (.ok (TableEvaluation.new [col_eval] chi))

/-- `DemoMockPlan::get_column_result_fields` (demo_mock_plan.rs). -/
def DemoMockPlan.get_column_result_fields (p : DemoMockPlan) : List ColumnField :=
  [⟨p.column.column_id, p.column.column_type⟩]

/-- `DemoMockPlan::get_column_references` (demo_mock_plan.rs). -/
def DemoMockPlan.get_column_references (p : DemoMockPlan) : IndexSet ColumnRef :=
  [p.column]

/-- `DemoMockPlan::get_table_references` (demo_mock_plan.rs). -/
def DemoMockPlan.get_table_references (p : DemoMockPlan) : IndexSet TableRef :=
  [p.column.table_ref]

/-- `DemoMockPlan::first_round_evaluate` (demo_mock_plan.rs): return the
referenced table from the table map; the `Index` lookup panics (`none`)
when the table is absent. -/
def DemoMockPlan.first_round_evaluate {S : Type} (p : DemoMockPlan)
    (_builder : FirstRoundBuilder S)
    (table_map : IndexMap TableRef Table)
    (_params : List LiteralValue) :
    Option (Except PlaceholderError Table) :=
  (IndexMap.find table_map p.column.table_ref).map Except.ok

/-- `DemoMockPlan::final_round_evaluate` (demo_mock_plan.rs): identical
body to the first round. -/
def DemoMockPlan.final_round_evaluate {S : Type} (p : DemoMockPlan)
    (_builder : FinalRoundBuilder S)
    (table_map : IndexMap TableRef Table)
    (_params : List LiteralValue) :
    Option (Except PlaceholderError Table) :=
  (IndexMap.find table_map p.column.table_ref).map Except.ok

/-- A concrete demonstration plan reading
`namespace.table_name.column_name`, as in the repository's test. -/
def demoPlanExample : DemoMockPlan :=
  ⟨⟨⟨"namespace.table_name"⟩, "column_name", .BigInt⟩⟩

/-- C1 counterexample: with the accessor and chi-eval maps both empty, so
the plan's declared reference is absent, `DemoMockPlan::verifier_evaluate`
panics — `none` in this embedding, where a returned `Err(ProofError)`
would be `some (Except.error _)` — so it does not return an `Err`. -/
theorem demo_verifier_missing_ref_is_panic :
    DemoMockPlan.verifier_evaluate (S := ℤ) demoPlanExample ⟨0⟩ [] none [] [] =
      none :=
  rfl

/-- C1 (amended): if any reference `DemoMockPlan` declares is absent from
the verifier's `accessor` or `chi_eval_map`, `verifier_evaluate` panics
(the map `Index` lookups; `none` in this embedding) rather than
returning an `Err(ProofError)`. -/
theorem demo_verifier_panics_on_absent_ref (S : Type) (p : DemoMockPlan)
    (builder : VerificationBuilder S)
    (accessor : IndexMap TableRef (IndexMap Ident S))
    (result : Option (OwnedTable S))
    (chi_eval_map : IndexMap TableRef (S × Nat))
    (params : List LiteralValue)
    (h : IndexMap.find accessor p.column.table_ref = none ∨
      (∃ m, IndexMap.find accessor p.column.table_ref = some m ∧
        IndexMap.find m p.column.column_id = none) ∨
      IndexMap.find chi_eval_map p.column.table_ref = none) :
    p.verifier_evaluate builder accessor result chi_eval_map params = none := by
  unfold DemoMockPlan.verifier_evaluate
  rcases h with h | ⟨m, hm, hc⟩ | h
  · rw [h]
  · rw [hm]
    dsimp only
    rw [hc]
  · cases hacc : IndexMap.find accessor p.column.table_ref with
    | none => rfl
    | some m =>
      dsimp only
      cases hcol : IndexMap.find m p.column.column_id with
      | none => rfl
      | some cv =>
        dsimp only
        rw [h]

/-- C1 witness: with the accessor holding the declared column but the
chi-eval map empty, the amended theorem applies and the call panics. -/
theorem demo_verifier_panics_on_absent_ref_witness :
    DemoMockPlan.verifier_evaluate (S := ℤ) demoPlanExample ⟨0⟩
      [(⟨"namespace.table_name"⟩, [("column_name", (5 : ℤ))])] none [] [] =
      none :=
  demo_verifier_panics_on_absent_ref ℤ demoPlanExample ⟨0⟩
    [(⟨"namespace.table_name"⟩, [("column_name", (5 : ℤ))])] none [] []
    (Or.inr (Or.inr rfl))

/-- C3: for a placeholder whose index is in bounds and whose bound
parameter matches the declared type, `verifier_evaluate` returns
`Ok(chi_eval * params[i].to_scalar())`, for every `chi_eval`. -/
theorem placeholder_verifier_eval_spec (S : Type) [CommRing S]
    (e : PlaceholderExpr) (builder : VerificationBuilder S)
    (accessor : IndexMap Ident S) (chi_eval : S)
    (params : List LiteralValue) (h : e.index < params.length)
    (hty : (params.get ⟨e.index, h⟩).column_type = e.column_type) :
    e.verifier_evaluate builder accessor chi_eval params =
      .ok (chi_eval * (params.get ⟨e.index, h⟩).to_scalar) := by
  unfold PlaceholderExpr.verifier_evaluate PlaceholderExpr.interpolate
  rw [List.getElem?_eq_getElem h]
  rw [List.get_eq_getElem] at hty
  dsimp only
  rw [if_neg (not_ne_iff.mpr hty), List.get_eq_getElem]

/-- C3 witness: placeholder for parameter 1, boolean, with
`params = [Boolean(true)]` and `chi_eval = 2` over the integers,
evaluates to `Ok(2 * to_scalar(true))`. -/
theorem placeholder_verifier_eval_spec_witness :
    PlaceholderExpr.verifier_evaluate (S := ℤ) ⟨0, .Boolean⟩ ⟨0⟩ [] 2
      [.Boolean true] = .ok (2 * (LiteralValue.Boolean true).to_scalar) :=
  placeholder_verifier_eval_spec ℤ ⟨0, .Boolean⟩ ⟨0⟩ [] 2 [.Boolean true]
    (by decide) (by decide)

/-- C5: for an in-bounds placeholder index, `interpolate` fails with
`InvalidPlaceholderType{index, expected, actual}` exactly when the bound
value's type disagrees with the declared type, and otherwise returns
`params[i]` itself, unchanged. -/
theorem interpolate_inbounds_spec (e : PlaceholderExpr)
    (params : List LiteralValue) (h : e.index < params.length) :
    ((params.get ⟨e.index, h⟩).column_type ≠ e.column_type →
      e.interpolate params = .error (.InvalidPlaceholderType e.index
        e.column_type (params.get ⟨e.index, h⟩).column_type)) ∧
    ((params.get ⟨e.index, h⟩).column_type = e.column_type →
      e.interpolate params = .ok (params.get ⟨e.index, h⟩)) := by
  unfold PlaceholderExpr.interpolate
  rw [List.getElem?_eq_getElem h]
  dsimp only
  rw [List.get_eq_getElem]
  constructor
  · intro hne
    rw [if_pos hne]
  · intro heq
    rw [if_neg (not_ne_iff.mpr heq)]

/-- C5 witness: placeholder for parameter 1 declared boolean with
`params = [BigInt(123)]` fails with
`InvalidPlaceholderType{0, Boolean, BigInt}`. -/
theorem interpolate_inbounds_spec_witness :
    PlaceholderExpr.interpolate ⟨0, .Boolean⟩ [.BigInt 123] =
      .error (.InvalidPlaceholderType 0 .Boolean .BigInt) :=
  (interpolate_inbounds_spec ⟨0, .Boolean⟩ [.BigInt 123] (by decide)).1
    (by decide)

/-- C2: for every challenge-independent node (`PlaceholderExpr`,
`EmptyExec`, `DemoMockPlan`) and identical inputs, `first_round_evaluate`
and `final_round_evaluate` return the same result — the same
column/table on success and the same error on failure. -/
theorem first_and_final_round_agree :
    (∀ (S : Type) (e : PlaceholderExpr) (builder : FinalRoundBuilder S)
        (table : Table) (params : List LiteralValue),
      e.final_round_evaluate builder table params =
        e.first_round_evaluate table params) ∧
    (∀ (S : Type) (x : EmptyExec) (fb : FirstRoundBuilder S)
        (lb : FinalRoundBuilder S) (table_map : IndexMap TableRef Table)
        (params : List LiteralValue),
      x.final_round_evaluate lb table_map params =
        x.first_round_evaluate fb table_map params) ∧
    (∀ (S : Type) (p : DemoMockPlan) (fb : FirstRoundBuilder S)
        (lb : FinalRoundBuilder S) (table_map : IndexMap TableRef Table)
        (params : List LiteralValue),
      p.final_round_evaluate lb table_map params =
        p.first_round_evaluate fb table_map params) :=
  ⟨fun _ _ _ _ _ => rfl, fun _ _ _ _ _ _ => rfl, fun _ _ _ _ _ _ => rfl⟩

/-- C4: `interpolate` fails with exactly
`InvalidPlaceholderIndex{index: i, num_params: m}` if and only if
`i >= m`. -/
theorem interpolate_index_error_iff (e : PlaceholderExpr)
    (params : List LiteralValue) :
    e.interpolate params =
      .error (.InvalidPlaceholderIndex e.index params.length) ↔
    params.length ≤ e.index := by
  unfold PlaceholderExpr.interpolate
  cases h : params[e.index]? with
  | none =>
    have hle : params.length ≤ e.index := List.getElem?_eq_none_iff.mp h
    simp [hle]
  | some v =>
    have hlt : e.index < params.length := by
      by_contra hc
      rw [List.getElem?_eq_none (Nat.le_of_not_lt hc)] at h
      exact Option.noConfusion h
    dsimp only
    constructor
    · intro heq
      by_cases hty : v.column_type ≠ e.column_type
      · rw [if_pos hty] at heq
        cases heq
      · rw [if_neg hty] at heq
        cases heq
    · intro hge
      omega

/-- C6: `try_new(id, t)` fails with `ZeroPlaceholderId` iff `id = 0`, and
for `id > 0` succeeds with `index = id - 1` and `column_type = t`. -/
theorem try_new_spec (id : Nat) (t : ColumnType) :
    (PlaceholderExpr.try_new id t = .error .ZeroPlaceholderId ↔ id = 0) ∧
    (0 < id → ∃ p, PlaceholderExpr.try_new id t = .ok p ∧
      p.index = id - 1 ∧ p.column_type = t) := by
  constructor
  · unfold PlaceholderExpr.try_new
    by_cases h : id > 0
    · rw [if_pos h]
      constructor
      · intro heq; cases heq
      · intro h0; omega
    · rw [if_neg h]
      constructor
      · intro _; omega
      · intro _; rfl
  · intro h
    exact ⟨⟨id - 1, t⟩, by rw [PlaceholderExpr.try_new, if_pos h], rfl, rfl⟩

/-- C7: both `EmptyExec` prover rounds always succeed (no panic, no
error) with a table that has zero columns and row count exactly 1,
regardless of the table map and params. -/
theorem empty_exec_round_outputs (S : Type) (e : EmptyExec)
    (fb : FirstRoundBuilder S) (lb : FinalRoundBuilder S)
    (table_map : IndexMap TableRef Table) (params : List LiteralValue) :
    e.first_round_evaluate fb table_map params =
      some (.ok (Table.mk [] 1)) ∧
    e.final_round_evaluate lb table_map params =
      some (.ok (Table.mk [] 1)) :=
  ⟨rfl, rfl⟩

/-- C8: `EmptyExec::verifier_evaluate` always succeeds, returning an
empty `column_evals` vector and `chi = (singleton_chi_evaluation, 1)`,
for every accessor, result, chi map and params. -/
theorem empty_exec_verifier_spec (S : Type) (e : EmptyExec)
    (builder : VerificationBuilder S)
    (accessor : IndexMap TableRef (IndexMap Ident S))
    (result : Option (OwnedTable S))
    (chi_eval_map : IndexMap TableRef (S × Nat))
    (params : List LiteralValue) :
    e.verifier_evaluate builder accessor result chi_eval_map params =
      .ok (TableEvaluation.new [] (builder.singleton_chi_evaluation, 1)) :=
  rfl

/-- C9: `PlaceholderExpr::get_column_references` leaves the reference set
exactly as it was — it adds no `ColumnRef` and removes none. -/
theorem placeholder_column_references_unchanged (e : PlaceholderExpr)
    (columns : IndexSet ColumnRef) :
    e.get_column_references columns = columns :=
  rfl

/-- C10: `TableEvaluation::new` validates nothing and stores its
arguments verbatim: for every `column_evals` list and `chi` pair the
accessors return exactly what was passed in. -/
theorem table_evaluation_new_verbatim (S : Type) (c : List S)
    (chi : S × Nat) :
    (TableEvaluation.new c chi).column_evals = c ∧
    (TableEvaluation.new c chi).chi = chi ∧
    (TableEvaluation.new c chi).chi_eval = chi.1 :=
  ⟨rfl, rfl, rfl⟩

end ProofOfSql
